import Mathlib

/-!
# Verification of the SDWIS search/report federation layer

Shallow embedding of `src/app.py` and `src/sdwis_ca_report.py`
(repository `brianjennin/sdwis_webapp`).

Python/pandas string primitives are modelled on `List Char`:
`str.strip` / `str.lower` / `str.upper` act on ASCII exactly as the
source relies on; `Series.astype(str)` turns a missing value (NaN) into
the literal string `"nan"`, while `Series.fillna("")` turns it into `""`
— both behaviours are reproduced where the source uses them.
-/

/-- ASCII whitespace recognised by Python's `str.strip()`. -/
def isSpaceChar (c : Char) : Bool :=
  c == ' ' || c == '\t' || c == '\n' || c == '\r' || c == '\x0b' || c == '\x0c'

/-- Python `str.strip()` (ASCII whitespace). -/
def pyStrip (s : String) : String :=
  .mk (((s.data.dropWhile isSpaceChar).reverse.dropWhile isSpaceChar).reverse)

/-- ASCII lower-casing of one character (Python `str.lower` restricted to ASCII). -/
def lowerChar (c : Char) : Char :=
  if 65 ≤ c.toNat && c.toNat ≤ 90 then Char.ofNat (c.toNat + 32) else c

/-- ASCII upper-casing of one character (Python `str.upper` restricted to ASCII). -/
def upperChar (c : Char) : Char :=
  if 97 ≤ c.toNat && c.toNat ≤ 122 then Char.ofNat (c.toNat - 32) else c

/-- Python `str.lower()`. -/
def pyLower (s : String) : String := .mk (s.data.map lowerChar)

/-- Python `str.upper()`. -/
def pyUpper (s : String) : String := .mk (s.data.map upperChar)

/-- `pandas` `fillna("").astype(str)` on an optional cell. -/
def fillnaStr (o : Option String) : String := o.getD ""

/-- `pandas` `astype(str)` on an optional cell: NaN becomes the string `"nan"`. -/
def astypeStr (o : Option String) : String := o.getD "nan"

/-- Boolean list-prefix test. -/
def isPrefixB : List Char → List Char → Bool
  | [], _ => true
  | _ :: _, [] => false
  | a :: as, b :: bs => a == b && isPrefixB as bs

/-- Boolean list-infix test (Python's `needle in hay`). -/
def isInfixB (needle : List Char) : List Char → Bool
  | [] => isPrefixB needle []
  | c :: cs => isPrefixB needle (c :: cs) || isInfixB needle cs

/-- Python `sub in hay` on strings. -/
def containsSub (hay sub : String) : Bool := isInfixB sub.data hay.data

/-- `pandas` `.str.contains(re.escape(t), case=False)` on one cell:
case-insensitive literal substring test. -/
def containsCI (hay pat : String) : Bool :=
  containsSub (pyLower hay) (pyLower pat)

/-- ASCII alphanumeric class `[A-Za-z0-9]`. -/
def isAlnumA (c : Char) : Bool :=
  (65 ≤ c.toNat && c.toNat ≤ 90) || (97 ≤ c.toNat && c.toNat ≤ 122) ||
    (48 ≤ c.toNat && c.toNat ≤ 57)

/-- Worker for `findTokens`: `acc` holds the current alphanumeric run, reversed. -/
def tokenizeAux : List Char → List Char → List String
  | [], acc => if acc.isEmpty then [] else [String.mk acc.reverse]
  | c :: cs, acc =>
    if isAlnumA c then tokenizeAux cs (c :: acc)
    else if acc.isEmpty then tokenizeAux cs []
    else String.mk acc.reverse :: tokenizeAux cs []

/-- `re.findall(r"[A-Za-z0-9]+", s)`: the maximal alphanumeric runs of `s`. -/
def findTokens (s : String) : List String := tokenizeAux s.data []

/-- `sdwis_ca_report.token_and_contains`, specialised to one cell of the series:
AND all tokens, case-insensitive, skipping empty tokens. -/
def token_and_contains (name : String) (tokens : List String) : Bool :=
  tokens.all (fun t => t == "" || containsCI name t)

/-- `sdwis_ca_report.looks_like_pwsid`:
`re.fullmatch(r"[A-Za-z]{2}\x7bd7\x7d", s.strip())` — two ASCII letters
followed by exactly seven digits. -/
def looks_like_pwsid (s : String) : Bool :=
  let t := (pyStrip s).data
  match t with
  | a :: b :: rest =>
      ((65 ≤ a.toNat && a.toNat ≤ 90) || (97 ≤ a.toNat && a.toNat ≤ 122)) &&
      ((65 ≤ b.toNat && b.toNat ≤ 90) || (97 ≤ b.toNat && b.toNat ≤ 122)) &&
      rest.length == 7 && rest.all (fun c => 48 ≤ c.toNat && c.toNat ≤ 57)
  | _ => false

/-- Lexicographic (code-point) order on character lists; this is the order
Python uses to compare strings, hence the order of `sort_values`. -/
def lexLE : List Char → List Char → Bool
  | [], _ => true
  | _ :: _, [] => false
  | a :: as, b :: bs =>
    if a.toNat < b.toNat then true
    else if b.toNat < a.toNat then false
    else lexLE as bs

/-- Python string `<=` (code-point lexicographic). -/
def strLE (a b : String) : Bool := lexLE a.data b.data

/-! ## Data model

`WSRow` is one row of the (column-restricted) WATER_SYSTEM pull:
`get_ws_by_state` keeps `PWSID`, `PWS_NAME` and, when the column exists,
`CITY_NAME`.  A per-row missing `CITY_NAME` cell (NaN) is `none`; whether
the `CITY_NAME` *column* exists at all is the table-level flag `hasCity`
(the source repeatedly branches on `"CITY_NAME" in ws.columns`). -/

structure WSRow where
  pwsid : String
  pws_name : String
  city_name : Option String
deriving DecidableEq, Repr

structure WSTable where
  hasCity : Bool
  rows : List WSRow
deriving DecidableEq, Repr

/-- One row of a per-PWSID GEOGRAPHIC_AREA fetch (`cached_ga_by_pwsid`).
The source reads only `CITY_SERVED` / `COUNTY_SERVED`, via `DataFrame.get`,
which tolerates a missing column the same way as NaN cells. -/
structure GARow where
  city_served : Option String
  county_served : Option String
deriving DecidableEq, Repr

/-- One entry of `ga_rows` in `app.fast_search`:
`{"PWSID": pid, "CITY_SERVED": citysv, "COUNTY_SERVED": county}`. -/
structure GAMatchRow where
  pwsid : String
  city_served : String
  county_served : String
deriving DecidableEq, Repr

/-- One displayed result row.  `city`/`county_served` are `none` when the
corresponding display column is absent or the cell is NaN. -/
structure ResultRow where
  pwsid : String
  pws_name : String
  city : Option String
  county_served : Option String
deriving DecidableEq, Repr

/-- Output of `app.fast_search`, instrumented with the list of PWSIDs for
which a per-PWSID GEOGRAPHIC_AREA fetch was issued (`cached_ga_by_pwsid`
calls) and with the truncation note (`st.info` at the end of the
function). -/
structure SearchOut where
  rows : List ResultRow
  gaFetched : List String
  truncNote : Bool
deriving DecidableEq, Repr

/-! ## drop_duplicates and sort_values -/

/-- `drop_duplicates(key)`: keep the first row for each key; `seen` is the
set of keys already emitted. -/
def dedupByAux {α : Type} (key : α → String) : List String → List α → List α
  | _, [] => []
  | seen, x :: xs =>
    if key x ∈ seen then dedupByAux key seen xs
    else x :: dedupByAux key (key x :: seen) xs

def dedupBy {α : Type} (key : α → String) (l : List α) : List α :=
  dedupByAux key [] l

/-- Order used by `sort_values("PWS_NAME")`. -/
def rowLE (a b : ResultRow) : Prop := strLE a.pws_name b.pws_name = true

instance : DecidableRel rowLE := fun a b =>
  inferInstanceAs (Decidable (strLE a.pws_name b.pws_name = true))

instance : IsTotal ResultRow rowLE :=
  ⟨fun a b => by
    unfold rowLE strLE
    generalize a.pws_name.data = x
    generalize b.pws_name.data = y
    induction x generalizing y with
    | nil => left; rfl
    | cons a as ih =>
      cases y with
      | nil => right; rfl
      | cons b bs =>
        by_cases hab : a.toNat < b.toNat
        · left; simp [lexLE, hab]
        · by_cases hba : b.toNat < a.toNat
          · right; simp [lexLE, hba]
          · rcases ih bs with h | h
            · left; simp [lexLE, hab, hba, h]
            · right; simp [lexLE, hab, hba, h]⟩

instance : IsTrans ResultRow rowLE :=
  ⟨fun p q r h1 h2 => by
    unfold rowLE strLE at h1 h2 ⊢
    revert h1 h2
    generalize p.pws_name.data = x
    generalize q.pws_name.data = y
    generalize r.pws_name.data = z
    intro h1 h2
    induction x generalizing y z with
    | nil => rfl
    | cons a as ih =>
      cases y with
      | nil => simp [lexLE] at h1
      | cons b bs =>
        cases z with
        | nil => simp [lexLE] at h2
        | cons c cs =>
          simp only [lexLE] at h1 h2 ⊢
          by_cases hab : a.toNat < b.toNat
          · by_cases hbc : b.toNat < c.toNat
            · have hac : a.toNat < c.toNat := by omega
              simp [hac]
            · by_cases hcb : c.toNat < b.toNat
              · simp [hbc, hcb] at h2
              · have hac : a.toNat < c.toNat := by omega
                simp [hac]
          · by_cases hba : b.toNat < a.toNat
            · simp [hab, hba] at h1
            · simp only [hab, hba, if_false] at h1
              by_cases hbc : b.toNat < c.toNat
              · have hac : a.toNat < c.toNat := by omega
                simp [hac]
              · by_cases hcb : c.toNat < b.toNat
                · simp [hbc, hcb] at h2
                · have hac : ¬ a.toNat < c.toNat := by omega
                  have hca : ¬ c.toNat < a.toNat := by omega
                  simp only [hbc, hcb, if_false] at h2
                  simp only [hac, hca, if_false]
                  exact ih _ _ h1 h2⟩

/-- `sort_values("PWS_NAME")` (any correct comparison sort; pandas and this
model agree on which orders are sorted). -/
def sortByName (l : List ResultRow) : List ResultRow := List.insertionSort rowLE l

/-! ## app.py: get_ws_by_state and fast_search -/

/-- `app.get_ws_by_state`: server-side filtered WATER_SYSTEM pull for a
state, column-restricted and de-duplicated by PWSID.  `wsOf` abstracts
`pull_rows_filtered("WATER_SYSTEM", "STATE_CODE", ...)` followed by the
column restriction. -/
def get_ws_by_state (wsOf : String → WSTable) (state : String) : WSTable :=
  let t := wsOf (pyUpper state)
  { hasCity := t.hasCity, rows := dedupBy WSRow.pwsid t.rows }

/-- The name filter of `fast_search` / `search_by_name` (lines 72–78 of
app.py): tokenize the stripped query on alphanumeric runs and AND-filter;
an empty query or an empty token list leaves the rows unfiltered. -/
def nameFilter (q : String) (rows : List WSRow) : List WSRow :=
  let qt := pyStrip q
  if qt = "" then rows
  else
    let tokens := findTokens qt
    if tokens.isEmpty then rows
    else rows.filter (fun r => token_and_contains r.pws_name tokens)

/-- Lines 80–88 and 127–134 of app.py (identical constructions): display
`PWSID`, `PWS_NAME` and — when the `CITY_NAME` column exists — a `CITY`
column built as `CITY_NAME.fillna("").astype(str).str.strip()`;
de-duplicate by PWSID and sort by name. -/
def wsOnlyOut (hasCity : Bool) (rows : List WSRow) : List ResultRow :=
  sortByName (dedupBy ResultRow.pwsid (rows.map (fun w =>
    { pwsid := w.pwsid, pws_name := w.pws_name,
      city := if hasCity then some (pyStrip (fillnaStr w.city_name)) else none,
      county_served := none })))

/-- Line 94–98 of app.py: PWSIDs whose `CITY_NAME` contains the lowered
term (`astype(str)` renders NaN as `"nan"`); empty when the column is
missing.  The source passes the term to `Series.str.contains` unescaped;
the model covers terms free of regex metacharacters, for which that is
plain substring containment. -/
def wsCityMatch (hasCity : Bool) (term : String) (rows : List WSRow) : List String :=
  if hasCity then
    (rows.filter (fun r => containsSub (pyLower (astypeStr r.city_name)) term)).map
      WSRow.pwsid
  else []

/-- `next((str(x).strip() for x in series if x.strip()), "")`: first
non-blank value, stripped; `""` when none. -/
def firstNonEmpty (xs : List String) : String :=
  match xs.find? (fun x => pyStrip x ≠ "") with
  | some x => pyStrip x
  | none => ""

/-- Lines 111–119 of app.py, for one candidate PWSID: fetch its
GEOGRAPHIC_AREA rows, take the first non-empty county and city served,
and keep the candidate when either contains the term. -/
def gaProbe (ga : String → List GARow) (term pid : String) : Option GAMatchRow :=
  let rows := ga pid
  if rows.isEmpty then none
  else
    let county := firstNonEmpty (rows.filterMap GARow.county_served)
    let citysv := firstNonEmpty (rows.filterMap GARow.city_served)
    if (county ≠ "" && containsSub (pyLower county) term) ||
       (citysv ≠ "" && containsSub (pyLower citysv) term) then
      some { pwsid := pid, city_served := citysv, county_served := county }
    else none

/-- Lines 143–152 of app.py, for one surviving WS row: build the unified
`CITY` (start at `""`, mask from `CITY_NAME` when that column exists, then
from the merged `CITY_SERVED` when GA matches were merged) and the
displayed `COUNTY_SERVED`. -/
def mkUnionRow (hasCity gaNonempty : Bool) (gaFind : String → Option GAMatchRow)
    (w : WSRow) : ResultRow :=
  let gaInfo := if gaNonempty then gaFind w.pwsid else none
  let c1 := if hasCity then pyStrip (fillnaStr w.city_name) else ""
  let c2 := if gaNonempty && c1 == "" then
              pyStrip (fillnaStr (gaInfo.map GAMatchRow.city_served))
            else c1
  { pwsid := w.pwsid, pws_name := w.pws_name, city := some c2,
    county_served := if gaNonempty then gaInfo.map GAMatchRow.county_served
                     else none }

/-- `app.fast_search`.  `wsOf` abstracts the cached, state-filtered
WATER_SYSTEM pull; `ga` abstracts `cached_ga_by_pwsid`. -/
def fast_search (wsOf : String → WSTable) (ga : String → List GARow)
    (state name_query county_or_city : String)
    (max_ga_candidates : Nat) : SearchOut :=
  let sc := pyUpper (pyStrip state)
  let wsT := get_ws_by_state wsOf sc
  if wsT.rows.isEmpty then { rows := [], gaFetched := [], truncNote := false }
  else
    let ws := nameFilter name_query wsT.rows
    if pyStrip county_or_city = "" then
      { rows := wsOnlyOut wsT.hasCity ws, gaFetched := [], truncNote := false }
    else
      let term := pyLower (pyStrip county_or_city)
      let wsCity := wsCityMatch wsT.hasCity term ws
      let candidates := ws.map WSRow.pwsid
      let tooMany := decide (max_ga_candidates < candidates.length)
      let capped := if tooMany then candidates.take max_ga_candidates
                    else candidates
      let gaMatches := capped.filterMap (gaProbe ga term)
      if wsCity.isEmpty && gaMatches.isEmpty then
        { rows := wsOnlyOut wsT.hasCity ws, gaFetched := capped,
          truncNote := false }
      else
        let wsUnion := ws.filter (fun r =>
          decide (r.pwsid ∈ wsCity) || gaMatches.any (fun g => g.pwsid == r.pwsid))
        let rows := wsUnion.map (mkUnionRow wsT.hasCity (!gaMatches.isEmpty)
          (fun pid => gaMatches.find? (fun g => g.pwsid == pid)))
        { rows := sortByName (dedupBy ResultRow.pwsid rows),
          gaFetched := capped, truncNote := tooMany }

/-! ## sdwis_ca_report.py: search_by_name (CLI, bulk GEOGRAPHIC_AREA) -/

/-- One row of the bulk GEOGRAPHIC_AREA pull (`_ga_all_cached`). -/
structure GABRow where
  pwsid : String
  city_served : Option String
  county_served : Option String
deriving DecidableEq, Repr

/-- The bulk GEOGRAPHIC_AREA table; the source branches on the presence of
the `PWSID`, `CITY_SERVED` and `COUNTY_SERVED` columns. -/
structure GABulk where
  hasPwsid : Bool
  hasCitySv : Bool
  hasCounty : Bool
  rows : List GABRow
deriving DecidableEq, Repr

/-- Output of `search_by_name`, instrumented with whether the bulk
GEOGRAPHIC_AREA pull (`_ga_all_cached()`) was invoked. -/
structure CLIOut where
  rows : List ResultRow
  gaPulled : Bool
deriving DecidableEq, Repr

/-- `re.fullmatch(r"[A-Z]\x7b2\x7d", s)`. -/
def isTwoUpper (s : String) : Bool :=
  match s.data with
  | [a, b] => (65 ≤ a.toNat && a.toNat ≤ 90) && (65 ≤ b.toNat && b.toNat ≤ 90)
  | _ => false

/-- Lines 380–395 of sdwis_ca_report.py: restrict the bulk GA table to the
state by PWSID prefix, then keep rows whose `COUNTY_SERVED` or
`CITY_SERVED` contains the lowered term (a missing column contributes an
all-`False` mask; `astype(str)` renders NaN cells as `"nan"`; as in
`wsCityMatch`, containment is modelled for metacharacter-free terms). -/
def gaBulkMatches (gaAll : GABulk) (sc term : String) : List GABRow :=
  let ga_state := gaAll.rows.filter (fun g => isPrefixB sc.data g.pwsid.data)
  ga_state.filter (fun g =>
    (gaAll.hasCounty && containsSub (pyLower (astypeStr g.county_served)) term) ||
    (gaAll.hasCitySv && containsSub (pyLower (astypeStr g.city_served)) term))

/-- `sdwis_ca_report.search_by_name`.  `wsOf` abstracts
`_ws_by_state_cached`, `gaAll` abstracts `_ga_all_cached()` (column-kept
and de-duplicated, as in the source).  `county_filter = none` models the
CLI's `None`. -/
def search_by_name (wsOf : String → WSTable) (gaAll : GABulk)
    (state_code name_query : String) (county_filter : Option String) : CLIOut :=
  let sc := pyUpper (pyStrip state_code)
  if ¬ isTwoUpper sc then { rows := [], gaPulled := false }
  else
    let wsT := wsOf sc
    if wsT.rows.isEmpty then { rows := [], gaPulled := false }
    else
      let ws := dedupBy WSRow.pwsid wsT.rows
      let ws := nameFilter name_query ws
      if ws.isEmpty ∧ pyStrip name_query ≠ "" ∧ ¬ (findTokens (pyStrip name_query)).isEmpty then
        { rows := [], gaPulled := false }
      else
        match county_filter with
        | none => { rows := wsOnlyOut wsT.hasCity ws, gaPulled := false }
        | some cf =>
          if cf = "" then { rows := wsOnlyOut wsT.hasCity ws, gaPulled := false }
          else
            if gaAll.rows.isEmpty || !gaAll.hasPwsid then
              { rows := wsOnlyOut wsT.hasCity ws, gaPulled := true }
            else
              let term := pyLower (pyStrip cf)
              let ga_match := gaBulkMatches gaAll sc term
              if ga_match.isEmpty then
                { rows := wsOnlyOut wsT.hasCity ws, gaPulled := true }
              else
                let merged := ws.flatMap (fun w =>
                  (ga_match.filter (fun g => g.pwsid == w.pwsid)).map (fun g => (w, g)))
                let rows := merged.map (fun wg =>
                  let c1 := if wsT.hasCity then pyStrip (fillnaStr wg.1.city_name) else ""
                  let c2 := if gaAll.hasCitySv && c1 == "" then
                              pyStrip (fillnaStr wg.2.city_served)
                            else c1
                  { pwsid := wg.1.pwsid, pws_name := wg.1.pws_name,
                    city := some c2,
                    county_served := if gaAll.hasCounty then wg.2.county_served
                                     else none })
                { rows := sortByName (dedupBy ResultRow.pwsid rows),
                  gaPulled := true }

/-! ## HTTP layer (api_get_json, pull_rows_*, fetch_table_by_pwsid)

A raw JSON row is an association list from field name to cell value. -/

def RawRow := List (String × String)
deriving instance DecidableEq, Repr for RawRow

/-- Outcome of a successful HTTP+JSON round trip: either a JSON array of
flat objects or some other payload (`isinstance(data, list)` fails). -/
inductive ApiData where
  | arr (records : List RawRow)
  | other
deriving DecidableEq, Repr

/-- `api_get_json`: one request with certificate validation; on any
failure one retry without validation; a second failure propagates
(`raise_for_status` / the re-raised exception).  `get b` is the outcome
of the underlying `_session.get` with `verify = b`. -/
def api_get_json (get : Bool → Except Unit ApiData) : Except Unit ApiData :=
  match get true with
  | .ok v => .ok v
  | .error _ => get false

/-- The sequence of `verify` flags of the `_session.get` calls that
`api_get_json` issues. -/
def api_get_json_calls (get : Bool → Except Unit ApiData) : List Bool :=
  match get true with
  | .ok _ => [true]
  | .error _ => [true, false]

/-- The paging loop shared by `pull_rows_paged` and `pull_rows_filtered`:
page `p` is fetched through `api_get_json`; a non-list or empty payload
breaks the loop; an exception is logged (the page index records the
`print(f"[Rows ...]")` call) and breaks the loop. -/
def pull_pages (net : Nat → Bool → Except Unit ApiData) :
    Nat → Nat → List (List RawRow) × List Nat
  | _, 0 => ([], [])
  | p, fuel + 1 =>
    match api_get_json (net p) with
    | .error _ => ([], [p])
    | .ok .other => ([], [])
    | .ok (.arr records) =>
      if records.isEmpty then ([], [])
      else
        let rest := pull_pages net (p + 1) fuel
        (records :: rest.1, rest.2)

/-- Result of a paged pull: the concatenated rows and the error log. -/
structure PullOut where
  rows : List RawRow
  errLog : List Nat
deriving DecidableEq, Repr

/-- `pull_rows_paged(table)`: full-table paged pull, never raising. -/
def pull_rows_paged (net : Nat → Bool → Except Unit ApiData)
    (max_pages : Nat) : PullOut :=
  let r := pull_pages net 0 max_pages
  { rows := r.1.flatten, errLog := r.2 }

/-- `pull_rows_filtered(table, col, val)`: identical loop over the
key-filtered URL. -/
def pull_rows_filtered (net : Nat → Bool → Except Unit ApiData)
    (max_pages : Nat) : PullOut :=
  let r := pull_pages net 0 max_pages
  { rows := r.1.flatten, errLog := r.2 }

/-! ### Connection-level retries of the shared session

The source mounts `HTTPAdapter(pool_connections=10, pool_maxsize=10,
max_retries=3)` on `_session`, so every `_session.get` may retry a failed
*connection* up to `session_max_retries` times before the call raises;
this is the documented semantics of the `max_retries` configuration the
source selects. -/

def session_max_retries : Nat := 3

/-- Outcome of one low-level connection attempt. -/
inductive ConnResult where
  | connFail
  | respOk (d : ApiData)
  | respBad
deriving DecidableEq, Repr

/-- One `_session.get` over a stream of connection outcomes: try attempts
`i, i+1, …` while connections fail, up to the given budget; an HTTP error
status raises (`raise_for_status`).  Returns the outcome and the number
of connection attempts consumed. -/
def session_get_go (conn : Nat → ConnResult) : Nat → Nat → Except Unit ApiData × Nat
  | _, 0 => (.error (), 0)
  | i, b + 1 =>
    match conn i with
    | .respOk d => (.ok d, 1)
    | .respBad => (.error (), 1)
    | .connFail =>
      if b == 0 then (.error (), 1)
      else
        let r := session_get_go conn (i + 1) b
        (r.1, r.2 + 1)

def session_get (conn : Nat → ConnResult) : Except Unit ApiData × Nat :=
  session_get_go conn 0 (session_max_retries + 1)

/-- `api_get_json` at the connection level: the verified call over `cv`,
then — only if it failed — the unverified call over `cu`; second
component counts all connection attempts. -/
def api_get_json_attempts (cv cu : Nat → ConnResult) : Except Unit ApiData × Nat :=
  let r1 := session_get cv
  match r1.1 with
  | .ok d => (.ok d, r1.2)
  | .error _ =>
    let r2 := session_get cu
    (r2.1, r1.2 + r2.2)

/-! ## Detail bundle (fetch_table_by_pwsid, TABLE_FIELDS, fetch_all_selected) -/

/-- A pandas DataFrame, abstracted to its column list and rows. -/
structure Table where
  cols : List String
  rows : List RawRow
deriving DecidableEq, Repr

def emptyTable : Table := { cols := [], rows := [] }

/-- `pd.DataFrame(records)` for a non-empty list of flat JSON objects:
the columns are the union of the row keys in order of first appearance. -/
def mkDF (records : List RawRow) : Table :=
  { cols := records.foldl (fun acc r =>
      acc ++ ((r.map Prod.fst).filter (fun k => ¬ acc.contains k)).eraseDups) [],
    rows := records }

/-- `df_upper`: upper-case all column names (and correspondingly the row
keys). -/
def df_upper (t : Table) : Table :=
  if t.rows.isEmpty ∨ t.cols.isEmpty then emptyTable
  else { cols := t.cols.map pyUpper,
         rows := t.rows.map (fun r => r.map (fun kv => (pyUpper kv.1, kv.2))) }

/-- `df[keep]`: column selection. -/
def selectCols (keep : List String) (t : Table) : Table :=
  { cols := keep,
    rows := t.rows.map (fun r => keep.filterMap (fun c =>
      (r.lookup c).map (fun v => (c, v)))) }

/-- `sdwis_ca_report.fetch_table_by_pwsid`: primary-key exact lookup;
a non-list payload or an exception yields an empty DataFrame (the
exception branch logs and returns). -/
def fetch_table_by_pwsid (api : String → String → Except Unit ApiData)
    (table pwsid : String) : Table :=
  match api table pwsid with
  | .error _ => emptyTable
  | .ok .other => emptyTable
  | .ok (.arr records) =>
    if records.isEmpty then emptyTable else df_upper (mkDF records)

/-- `sdwis_ca_report.TABLE_FIELDS`, verbatim. -/
def TABLE_FIELDS : List (String × List String) :=
  [ ("WATER_SYSTEM",
     ["PWSID", "PWS_ACTIVITY_CODE", "PWS_TYPE_CODE", "PWS_NAME",
      "POPULATION_SERVED_COUNT", "PRIMARY_SOURCE_CODE", "OWNER_TYPE_CODE",
      "GW_SW_CODE", "IS_GRANT_ELIGIBLE_IND", "IS_WHOLESALER_IND",
      "SERVICE_CONNECTIONS_COUNT", "ORG_NAME", "ADMIN_NAME", "EMAIL_ADDR",
      "STATE_CODE", "CITY_NAME"]),
    ("GEOGRAPHIC_AREA",
     ["PWSID", "TRIBAL_CODE", "STATE_SERVED", "CITY_SERVED", "COUNTY_SERVED"]),
    ("VIOLATION",
     ["PWSID", "CONTAMINANT_CODE", "VIOLATION_CODE", "VIOLATION_CATEGORY_CODE",
      "IS_HEALTH_BASED_IND", "COMPLIANCE_STATUS_CODE", "RULE_GROUP_CODE"]),
    ("WATER_SYSTEM_FACILITY",
     ["PWSID", "FACILITY_ID", "FACILITY_NAME", "STATE_FACILITY_ID",
      "FACILITY_ACTIVITY_CODE", "FACILITY_TYPE_CODE", "IS_SOURCE_IND",
      "WATER_TYPE_CODE", "AVAILABILITY_CODE"]),
    ("SERVICE_AREA",
     ["PWSID", "SELLER_TREATMENT_CODE", "SELLER_PWSID", "SELLER_PWS_NAME",
      "IS_SOURCE_TREATED_IND", "SERVICE_AREA_TYPE_CODE",
      "IS_PRIMARY_SERVICE_AREA_CODE"]),
    ("TREATMENT",
     ["COMMENTS_TEXT", "FACILITY_ID", "PWSID", "TREATMENT_ID",
      "TREATMENT_OBJECTIVE_CODE", "TREATMENT_PROCESS_CODE"]) ]

/-- The per-table post-processing step of `fetch_all_selected`
(`if not df.empty: keep = [c for c in wanted if c in df.columns];
if keep: df = df[keep]`). -/
def restrictTable (wanted : List String) (df : Table) : Table :=
  if ¬ df.rows.isEmpty then
    let keep := wanted.filter (fun c => df.cols.contains c)
    if ¬ keep.isEmpty then selectCols keep df else df
  else df

/-- `sdwis_ca_report.fetch_all_selected`: one detail fetch per configured
table; a non-empty fetch is restricted to the configured fields when at
least one of them is present. -/
def fetch_all_selected (api : String → String → Except Unit ApiData)
    (pwsid : String) : List (String × Table) :=
  TABLE_FIELDS.map (fun tw =>
    (tw.1, restrictTable tw.2 (fetch_table_by_pwsid api tw.1 pwsid)))

/-- `fetch_all_selected` paired with the trace of the detail fetches it
issues (the `fetch_table_by_pwsid` calls, one per configured table). -/
def fetch_all_selected_trace (api : String → String → Except Unit ApiData)
    (pwsid : String) : List (String × Table) × List String :=
  (fetch_all_selected api pwsid, TABLE_FIELDS.map Prod.fst)

/-- The `mode == "PWSID"` branch of app.py: strip and upper-case the
input, validate with `looks_like_pwsid`, and only on success run the
report flow (whose remote calls are the `fetch_all_selected` trace).
`none` models the `st.error("Enter a valid PWSID…")` outcome. -/
def pwsid_submit_flow (api : String → String → Except Unit ApiData)
    (p : String) : Option (List (String × Table)) × List String :=
  let pid := pyUpper (pyStrip p)
  if looks_like_pwsid pid then
    let r := fetch_all_selected_trace api pid
    (some r.1, r.2)
  else (none, [])

/-! ## Concrete fixtures used by witnesses and counterexamples -/

/-- A two-row WATER_SYSTEM table for state CA. -/
def wsFixture : WSTable :=
  { hasCity := true,
    rows := [ { pwsid := "CA0000002", pws_name := "BETA WATER",
                city_name := some "LODI" },
              { pwsid := "CA0000001", pws_name := "ALPHA WATER",
                city_name := some "FRESNO" } ] }

def wsOfFixture : String → WSTable :=
  fun s => if s = "CA" then wsFixture else { hasCity := true, rows := [] }

/-- A GEOGRAPHIC_AREA oracle with no rows for any system. -/
def gaEmptyOracle : String → List GARow := fun _ => []

/-- A GEOGRAPHIC_AREA oracle with one row for CA0000001. -/
def gaOneOracle : String → List GARow := fun pid =>
  if pid = "CA0000001" then
    [ { city_served := some "FRESNO", county_served := some "FRESNO COUNTY" } ]
  else []

/-- A WS oracle that returns no rows for every state. -/
def wsOfNone : String → WSTable := fun _ => { hasCity := true, rows := [] }

/-- An empty bulk GEOGRAPHIC_AREA table. -/
def gaBulkEmpty : GABulk :=
  { hasPwsid := true, hasCitySv := true, hasCounty := true, rows := [] }

/-- A bulk GEOGRAPHIC_AREA table with one row for CA0000002. -/
def gaBulkFixture : GABulk :=
  { hasPwsid := true, hasCitySv := true, hasCounty := true,
    rows := [ { pwsid := "CA0000002", city_served := some "LODI GA",
                county_served := some "SAN JOAQUIN" } ] }

/-! ## Named intermediates of fast_search (for theorem statements)

Each is definitionally the corresponding `let`-bound intermediate inside
`fast_search`. -/

/-- The name-filtered jurisdiction subset `ws` of `fast_search`. -/
def fsWS (wsOf : String → WSTable) (st q : String) : List WSRow :=
  nameFilter q (get_ws_by_state wsOf (pyUpper (pyStrip st))).rows

/-- `ws_city_match` of `fast_search`. -/
def fsWsCity (wsOf : String → WSTable) (st q c : String) : List String :=
  wsCityMatch (get_ws_by_state wsOf (pyUpper (pyStrip st))).hasCity
    (pyLower (pyStrip c)) (fsWS wsOf st q)

/-- The capped candidate list of `fast_search` (the PWSIDs actually probed). -/
def fsCapped (wsOf : String → WSTable) (st q : String) (cap : Nat) : List String :=
  if decide (cap < (List.map WSRow.pwsid (fsWS wsOf st q)).length) = true
  then List.take cap (List.map WSRow.pwsid (fsWS wsOf st q))
  else List.map WSRow.pwsid (fsWS wsOf st q)

/-- `ga_match` of `fast_search`: the per-candidate Location-table matches. -/
def fsGaMatches (wsOf : String → WSTable) (ga : String → List GARow)
    (st q c : String) (cap : Nat) : List GAMatchRow :=
  List.filterMap (gaProbe ga (pyLower (pyStrip c))) (fsCapped wsOf st q cap)

/-! ## Error-path and detail-bundle fixtures -/

/-- An API oracle whose every request fails. -/
def apiErrOracle : String → String → Except Unit ApiData := fun _ _ => .error ()

/-- An API oracle returning, for every table, one record with the single
unconfigured column `foo`. -/
def apiFooOracle : String → String → Except Unit ApiData :=
  fun _ _ => .ok (.arr [[("foo", "1")]])

/-- A session-level getter whose every request fails. -/
def getFail : Bool → Except Unit ApiData := fun _ => .error ()

/-- A paged-network oracle whose every request fails. -/
def netFail : Nat → Bool → Except Unit ApiData := fun _ _ => .error ()

/-- A connection stream that fails three times, then succeeds. -/
def connRetryOracle : Nat → ConnResult :=
  fun i => if i < 3 then .connFail else .respOk (.arr [])

/-! ## Theorems: supporting lemmas, then one theorem per claim -/

theorem mem_of_mem_dedupByAux {α : Type} (key : α → String) :
    ∀ (l : List α) (seen : List String) (x : α),
      x ∈ dedupByAux key seen l → x ∈ l := by
  intro l
  induction l with
  | nil => intro seen x h; simp [dedupByAux] at h
  | cons a as ih =>
    intro seen x h
    simp only [dedupByAux] at h
    by_cases hs : key a ∈ seen
    · rw [if_pos hs] at h
      exact List.mem_cons_of_mem _ (ih _ _ h)
    · rw [if_neg hs, List.mem_cons] at h
      rcases h with h | h
      · exact h ▸ List.mem_cons_self _ _
      · exact List.mem_cons_of_mem _ (ih _ _ h)

theorem mem_of_mem_dedupBy {α : Type} (key : α → String) {l : List α} {x : α}
    (h : x ∈ dedupBy key l) : x ∈ l :=
  mem_of_mem_dedupByAux key l [] x h

theorem key_not_in_seen_of_mem_dedupByAux {α : Type} (key : α → String) :
    ∀ (l : List α) (seen : List String) (x : α),
      x ∈ dedupByAux key seen l → key x ∉ seen := by
  intro l
  induction l with
  | nil => intro seen x h; simp [dedupByAux] at h
  | cons a as ih =>
    intro seen x h
    simp only [dedupByAux] at h
    by_cases hs : key a ∈ seen
    · rw [if_pos hs] at h
      exact ih _ _ h
    · rw [if_neg hs, List.mem_cons] at h
      rcases h with h | h
      · exact h ▸ hs
      · intro hk
        exact ih _ _ h (List.mem_cons_of_mem _ hk)

theorem nodup_keys_dedupByAux {α : Type} (key : α → String) :
    ∀ (l : List α) (seen : List String),
      ((dedupByAux key seen l).map key).Nodup := by
  intro l
  induction l with
  | nil => intro seen; simp [dedupByAux]
  | cons a as ih =>
    intro seen
    simp only [dedupByAux]
    by_cases hs : key a ∈ seen
    · rw [if_pos hs]; exact ih _
    · rw [if_neg hs]
      simp only [List.map_cons, List.nodup_cons]
      refine ⟨?_, ih _⟩
      intro hmem
      rcases List.mem_map.mp hmem with ⟨y, hy, hky⟩
      exact key_not_in_seen_of_mem_dedupByAux key _ _ _ hy
        (hky ▸ List.mem_cons_self _ _)

theorem nodup_keys_dedupBy {α : Type} (key : α → String) (l : List α) :
    ((dedupBy key l).map key).Nodup :=
  nodup_keys_dedupByAux key l []

theorem sortByName_perm (l : List ResultRow) : List.Perm (sortByName l) l :=
  List.perm_insertionSort rowLE l

theorem sortByName_sorted (l : List ResultRow) :
    List.Pairwise rowLE (sortByName l) :=
  List.sorted_insertionSort rowLE l

theorem mem_sortByName {l : List ResultRow} {r : ResultRow} :
    r ∈ sortByName l ↔ r ∈ l :=
  (sortByName_perm l).mem_iff

theorem nodup_keys_sortByName {l : List ResultRow}
    (h : (l.map ResultRow.pwsid).Nodup) :
    ((sortByName l).map ResultRow.pwsid).Nodup :=
  (((sortByName_perm l).map ResultRow.pwsid).nodup_iff).mpr h

/-- The standard output shape of every search branch is de-duplicated by
`PWSID` and sorted by name. -/
theorem sortDedup_sorted (l : List ResultRow) :
    List.Pairwise rowLE (sortByName (dedupBy ResultRow.pwsid l)) :=
  sortByName_sorted _

theorem sortDedup_nodup (l : List ResultRow) :
    ((sortByName (dedupBy ResultRow.pwsid l)).map ResultRow.pwsid).Nodup :=
  nodup_keys_sortByName (nodup_keys_dedupBy _ _)

theorem mem_sortDedup {l : List ResultRow} {r : ResultRow}
    (h : r ∈ sortByName (dedupBy ResultRow.pwsid l)) : r ∈ l :=
  mem_of_mem_dedupBy _ (mem_sortByName.mp h)

theorem tokenizeAux_ne_nil :
    ∀ (cs acc : List Char) (t : String), t ∈ tokenizeAux cs acc → t.data ≠ [] := by
  intro cs
  induction cs with
  | nil =>
    intro acc t h
    simp only [tokenizeAux] at h
    by_cases ha : acc.isEmpty = true
    · rw [if_pos ha] at h
      simp at h
    · rw [if_neg ha, List.mem_singleton] at h
      subst h
      intro hdata
      apply ha
      rw [List.isEmpty_iff, ← List.reverse_eq_nil_iff]
      exact hdata
  | cons c cs ih =>
    intro acc t h
    simp only [tokenizeAux] at h
    by_cases hc : isAlnumA c = true
    · rw [if_pos hc] at h
      exact ih _ _ h
    · rw [if_neg hc] at h
      by_cases ha : acc.isEmpty = true
      · rw [if_pos ha] at h
        exact ih _ _ h
      · rw [if_neg ha, List.mem_cons] at h
        rcases h with h | h
        · subst h
          intro hdata
          apply ha
          rw [List.isEmpty_iff, ← List.reverse_eq_nil_iff]
          exact hdata
        · exact ih _ _ h

theorem mem_findTokens_ne_empty {s t : String} (h : t ∈ findTokens s) : t ≠ "" := by
  intro he
  exact tokenizeAux_ne_nil s.data [] t h (by simp [he])

/-- A row surviving the name filter contains every token of the stripped
query, case-insensitively. -/
theorem nameFilter_token_mem {q : String} {rows : List WSRow} {w : WSRow}
    (hw : w ∈ nameFilter q rows) {t : String}
    (ht : t ∈ findTokens (pyStrip q)) : containsCI w.pws_name t = true := by
  unfold nameFilter at hw
  by_cases hq : pyStrip q = ""
  · rw [hq] at ht
    simp [findTokens, tokenizeAux] at ht
  · rw [if_neg hq] at hw
    by_cases htk : (findTokens (pyStrip q)).isEmpty = true
    · rw [List.isEmpty_iff] at htk
      rw [htk] at ht
      simp at ht
    · rw [if_neg htk, List.mem_filter] at hw
      have hall := hw.2
      unfold token_and_contains at hall
      have := (List.all_eq_true.mp hall) t ht
      rcases Bool.or_eq_true_iff.mp this with h | h
      · exact absurd (by simpa using h) (mem_findTokens_ne_empty ht)
      · exact h

theorem nameFilter_subset {q : String} {rows : List WSRow} :
    ∀ w ∈ nameFilter q rows, w ∈ rows := by
  intro w hw
  unfold nameFilter at hw
  by_cases hq : pyStrip q = ""
  · rw [if_pos hq] at hw; exact hw
  · rw [if_neg hq] at hw
    by_cases htk : (findTokens (pyStrip q)).isEmpty = true
    · rw [if_pos htk] at hw; exact hw
    · rw [if_neg htk] at hw
      exact List.mem_of_mem_filter hw

theorem nameFilter_sublist (q : String) (rows : List WSRow) :
    (nameFilter q rows).Sublist rows := by
  unfold nameFilter
  by_cases hq : pyStrip q = ""
  · rw [if_pos hq]
  · rw [if_neg hq]
    by_cases htk : (findTokens (pyStrip q)).isEmpty = true
    · rw [if_pos htk]
    · rw [if_neg htk]
      exact List.filter_sublist _

theorem toNat_ofNat_valid {n : Nat} (h : Nat.isValidChar n) :
    (Char.ofNat n).toNat = n := by
  simp [Char.ofNat, h, Char.ofNatAux, Char.toNat, UInt32.toNat, BitVec.toNat_ofNatLt]

theorem upperChar_idem (c : Char) : upperChar (upperChar c) = upperChar c := by
  unfold upperChar
  by_cases h : (97 ≤ c.toNat && c.toNat ≤ 122) = true
  · rw [if_pos h]
    have hb := Bool.and_eq_true_iff.mp h
    have h97 : 97 ≤ c.toNat := by simpa using hb.1
    have h122 : c.toNat ≤ 122 := by simpa using hb.2
    have hval : Nat.isValidChar (c.toNat - 32) := Or.inl (by omega)
    have htn : (Char.ofNat (c.toNat - 32)).toNat = c.toNat - 32 :=
      toNat_ofNat_valid hval
    have : ((97 ≤ (Char.ofNat (c.toNat - 32)).toNat &&
        (Char.ofNat (c.toNat - 32)).toNat ≤ 122) = false) := by
      rw [htn]
      simp only [Bool.and_eq_false_iff]
      left
      simp only [decide_eq_false_iff_not]
      omega
    rw [if_neg (by simp [this])]
  · rw [if_neg h, if_neg h]

theorem pyUpper_idem (s : String) : pyUpper (pyUpper s) = pyUpper s := by
  unfold pyUpper
  simp [List.map_map, Function.comp_def, upperChar_idem]

/-- Every row of `wsOnlyOut` is built from one input WS row. -/
theorem wsOnlyOut_mem {hc : Bool} {rows : List WSRow} {r : ResultRow}
    (h : r ∈ wsOnlyOut hc rows) :
    ∃ w, w ∈ rows ∧
      r = { pwsid := w.pwsid, pws_name := w.pws_name,
            city := if hc then some (pyStrip (fillnaStr w.city_name)) else none,
            county_served := none } := by
  have hm := mem_sortDedup h
  rcases List.mem_map.mp hm with ⟨w, hw, hrw⟩
  exact ⟨w, hw, hrw.symm⟩

/-- When the `CITY_NAME` column exists and the row's stripped city is
non-blank, the merged `CITY` of `mkUnionRow` is exactly that value
(System-table preference). -/
theorem mkUnionRow_city {hc gne : Bool} {gaFind : String → Option GAMatchRow}
    {w : WSRow} (hhc : hc = true)
    (hne : pyStrip (fillnaStr w.city_name) ≠ "") :
    (mkUnionRow hc gne gaFind w).city =
      some (pyStrip (fillnaStr w.city_name)) := by
  subst hhc
  unfold mkUnionRow
  have hfalse : (pyStrip (fillnaStr w.city_name) == "") = false := by
    rw [beq_eq_false_iff_ne]
    exact hne
  simp [hfalse]

/-- Every row of a `fast_search` result is backed by a WS row of the
jurisdiction that survived the name filter; the row inherits its `PWSID`
and `PWS_NAME`, and — when the System table has a non-blank city for it —
its `CITY`. -/
theorem fast_search_provenance (wsOf : String → WSTable)
    (ga : String → List GARow) (st q c : String) (cap : Nat) {r : ResultRow}
    (hr : r ∈ (fast_search wsOf ga st q c cap).rows) :
    ∃ w, w ∈ nameFilter q (get_ws_by_state wsOf (pyUpper (pyStrip st))).rows ∧
      r.pwsid = w.pwsid ∧ r.pws_name = w.pws_name ∧
      ((get_ws_by_state wsOf (pyUpper (pyStrip st))).hasCity = true →
        pyStrip (fillnaStr w.city_name) ≠ "" →
        r.city = some (pyStrip (fillnaStr w.city_name))) := by
  unfold fast_search at hr
  set wsT := get_ws_by_state wsOf (pyUpper (pyStrip st)) with hwsT
  by_cases h0 : wsT.rows.isEmpty = true
  · rw [if_pos h0] at hr
    simp at hr
  · rw [if_neg h0] at hr
    by_cases h1 : pyStrip c = ""
    · rw [if_pos h1] at hr
      simp only at hr
      rcases wsOnlyOut_mem hr with ⟨w, hw, hrw⟩
      refine ⟨w, hw, ?_, ?_, ?_⟩
      · rw [hrw]
      · rw [hrw]
      · intro hhc _
        rw [hrw]
        exact if_pos (show (get_ws_by_state wsOf (pyUpper (pyStrip st))).hasCity = true from hhc) ▸ rfl
    · rw [if_neg h1] at hr
      simp only at hr
      by_cases h2 : ((wsCityMatch wsT.hasCity (pyLower (pyStrip c))
            (nameFilter q wsT.rows)).isEmpty &&
          ((if decide (cap < (List.map WSRow.pwsid (nameFilter q wsT.rows)).length) = true
              then (List.map WSRow.pwsid (nameFilter q wsT.rows)).take cap
              else List.map WSRow.pwsid (nameFilter q wsT.rows)).filterMap
            (gaProbe ga (pyLower (pyStrip c)))).isEmpty) = true
      · rw [if_pos h2] at hr
        simp only at hr
        rcases wsOnlyOut_mem hr with ⟨w, hw, hrw⟩
        refine ⟨w, hw, ?_, ?_, ?_⟩
        · rw [hrw]
        · rw [hrw]
        · intro hhc _
          rw [hrw]
          exact if_pos (show (get_ws_by_state wsOf (pyUpper (pyStrip st))).hasCity = true from hhc) ▸ rfl
      · rw [if_neg h2] at hr
        simp only at hr
        have hm := mem_sortDedup hr
        rcases List.mem_map.mp hm with ⟨w, hw, hrw⟩
        have hwf : w ∈ nameFilter q wsT.rows := List.mem_of_mem_filter hw
        refine ⟨w, hwf, ?_, ?_, ?_⟩
        · rw [← hrw]; rfl
        · rw [← hrw]; rfl
        · intro hhc hne
          rw [← hrw]
          exact mkUnionRow_city hhc hne

theorem nameFilter_nil (q : String) : nameFilter q [] = [] := by
  unfold nameFilter
  by_cases hq : pyStrip q = ""
  · rw [if_pos hq]
  · rw [if_neg hq]
    by_cases htk : (findTokens (pyStrip q)).isEmpty = true
    · rw [if_pos htk]
    · rw [if_neg htk]
      rfl

theorem wsOnlyOut_sorted (hc : Bool) (rows : List WSRow) :
    List.Pairwise rowLE (wsOnlyOut hc rows) :=
  sortDedup_sorted _

theorem wsOnlyOut_nodup (hc : Bool) (rows : List WSRow) :
    ((wsOnlyOut hc rows).map ResultRow.pwsid).Nodup :=
  sortDedup_nodup _

/-- C1: for every search with a non-empty name query, every returned row's
`PWS_NAME` contains every alphanumeric token of the query,
case-insensitively (AND across tokens); a query with no alphanumeric
characters tokenizes to the empty list and leaves the jurisdiction's
System rows unfiltered. -/
theorem claim_C1 :
    (∀ (wsOf : String → WSTable) (ga : String → List GARow)
       (st q c : String) (cap : Nat) (r : ResultRow) (t : String),
       r ∈ (fast_search wsOf ga st q c cap).rows →
       t ∈ findTokens (pyStrip q) → containsCI r.pws_name t = true) ∧
    (∀ (q : String) (rows : List WSRow),
       findTokens (pyStrip q) = [] → nameFilter q rows = rows) := by
  constructor
  · intro wsOf ga st q c cap r t hr ht
    rcases fast_search_provenance wsOf ga st q c cap hr with ⟨w, hw, _, hname, _⟩
    rw [hname]
    exact nameFilter_token_mem hw ht
  · intro q rows htok
    unfold nameFilter
    by_cases hq : pyStrip q = ""
    · rw [if_pos hq]
    · rw [if_neg hq, if_pos (show (findTokens (pyStrip q)).isEmpty = true by
        rw [htok]; rfl)]

theorem claim_C1_witness :
    containsCI "ALPHA WATER" "Alpha" = true ∧
    nameFilter "!! --" wsFixture.rows = wsFixture.rows := by
  constructor
  · exact claim_C1.1 wsOfFixture gaEmptyOracle "ca" " Alpha " "" 300
      { pwsid := "CA0000001", pws_name := "ALPHA WATER", city := some "FRESNO",
        county_served := none } "Alpha" (by decide) (by decide)
  · exact claim_C1.2 "!! --" wsFixture.rows (by decide)

/-- C4: for every search with an empty (after stripping) location query,
the result is computed from the System rows alone — `CITY` comes from
`CITY_NAME` — and no GEOGRAPHIC_AREA fetch is issued (the first component
of the equation's right-hand side mentions only the WS pull; the fetch
trace is empty). -/
theorem claim_C4 (wsOf : String → WSTable) (ga : String → List GARow)
    (gaAll : GABulk) (st q c : String) (cap : Nat) (hc : pyStrip c = "") :
    fast_search wsOf ga st q c cap =
      { rows := wsOnlyOut (get_ws_by_state wsOf (pyUpper (pyStrip st))).hasCity
          (nameFilter q (get_ws_by_state wsOf (pyUpper (pyStrip st))).rows),
        gaFetched := [], truncNote := false } ∧
    (search_by_name wsOf gaAll st q none).gaPulled = false ∧
    (search_by_name wsOf gaAll st q (some "")).gaPulled = false := by
  refine ⟨?_, ?_, ?_⟩
  · unfold fast_search
    by_cases h0 : (get_ws_by_state wsOf (pyUpper (pyStrip st))).rows.isEmpty = true
    · rw [if_pos h0]
      have hnil : (get_ws_by_state wsOf (pyUpper (pyStrip st))).rows = [] :=
        List.isEmpty_iff.mp h0
      rw [hnil, nameFilter_nil]
      rfl
    · rw [if_neg h0, if_pos hc]
  · unfold search_by_name
    simp only
    repeat' split
    all_goals rfl
  · unfold search_by_name
    simp only
    repeat' split
    all_goals first
      | rfl
      | simp_all

theorem claim_C4_witness :
    (fast_search wsOfFixture gaOneOracle "ca" "" "  " 300 =
      { rows := wsOnlyOut (get_ws_by_state wsOfFixture (pyUpper (pyStrip "ca"))).hasCity
          (nameFilter "" (get_ws_by_state wsOfFixture (pyUpper (pyStrip "ca"))).rows),
        gaFetched := [], truncNote := false }) ∧
    (search_by_name wsOfFixture gaBulkEmpty "ca" "" none).gaPulled = false ∧
    (search_by_name wsOfFixture gaBulkEmpty "ca" "" (some "")).gaPulled = false :=
  claim_C4 wsOfFixture gaOneOracle gaBulkEmpty "ca" "" "  " 300 (by decide)

/-- C9: for a jurisdiction whose System-table subset is empty, both search
entry points return an empty result (and in particular do not fail). -/
theorem claim_C9 (wsOf : String → WSTable) (ga : String → List GARow)
    (gaAll : GABulk) (st q c : String) (cf : Option String) (cap : Nat)
    (h : (wsOf (pyUpper (pyStrip st))).rows = []) :
    fast_search wsOf ga st q c cap =
      { rows := [], gaFetched := [], truncNote := false } ∧
    search_by_name wsOf gaAll st q cf = { rows := [], gaPulled := false } := by
  constructor
  · unfold fast_search
    have hrows : (get_ws_by_state wsOf (pyUpper (pyStrip st))).rows = [] := by
      show dedupBy WSRow.pwsid (wsOf (pyUpper (pyUpper (pyStrip st)))).rows = []
      rw [pyUpper_idem, h]
      rfl
    rw [if_pos (by rw [hrows]; rfl)]
  · unfold search_by_name
    by_cases h1 : ¬ isTwoUpper (pyUpper (pyStrip st)) = true
    · rw [if_pos h1]
    · rw [if_neg h1, if_pos (by rw [h]; rfl)]

theorem claim_C9_witness :
    fast_search wsOfNone gaEmptyOracle "AK" "city" "anchorage" 300 =
      { rows := [], gaFetched := [], truncNote := false } ∧
    search_by_name wsOfNone gaBulkEmpty "AK" "city" (some "anchorage") =
      { rows := [], gaPulled := false } :=
  claim_C9 wsOfNone gaEmptyOracle gaBulkEmpty "AK" "city" "anchorage"
    (some "anchorage") 300 (by decide)

/-- Every row of `wsOnlyOut` inherits its `PWSID` and `PWS_NAME` from
its backing WS row and, when the `CITY_NAME` column exists, its `CITY`
is the stripped System-table city. -/
theorem wsOnlyOut_provenance {hc : Bool} {rows : List WSRow} {r : ResultRow}
    (h : r ∈ wsOnlyOut hc rows) :
    ∃ w, w ∈ rows ∧ r.pwsid = w.pwsid ∧ r.pws_name = w.pws_name ∧
      (hc = true → pyStrip (fillnaStr w.city_name) ≠ "" →
        r.city = some (pyStrip (fillnaStr w.city_name))) := by
  rcases wsOnlyOut_mem h with ⟨w, hw, hrw⟩
  refine ⟨w, hw, ?_, ?_, ?_⟩
  · rw [hrw]
  · rw [hrw]
  · intro hhc _
    rw [hrw]
    simp only
    rw [if_pos hhc]

/-- Every row of a `search_by_name` result is backed by a WS row of the
jurisdiction that survived the name filter; the row inherits its `PWSID`
and `PWS_NAME`, and — when the System table has a non-blank city for it —
its `CITY`. -/
theorem search_by_name_provenance (wsOf : String → WSTable) (gaAll : GABulk)
    (st q : String) (cf : Option String) {r : ResultRow}
    (hr : r ∈ (search_by_name wsOf gaAll st q cf).rows) :
    ∃ w, w ∈ nameFilter q (dedupBy WSRow.pwsid (wsOf (pyUpper (pyStrip st))).rows) ∧
      r.pwsid = w.pwsid ∧ r.pws_name = w.pws_name ∧
      ((wsOf (pyUpper (pyStrip st))).hasCity = true →
        pyStrip (fillnaStr w.city_name) ≠ "" →
        r.city = some (pyStrip (fillnaStr w.city_name))) := by
  unfold search_by_name at hr
  by_cases hsc : ¬ isTwoUpper (pyUpper (pyStrip st)) = true
  · rw [if_pos hsc] at hr
    simp at hr
  · rw [if_neg hsc] at hr
    by_cases h0 : (wsOf (pyUpper (pyStrip st))).rows.isEmpty = true
    · rw [if_pos h0] at hr
      simp at hr
    · rw [if_neg h0] at hr
      simp only at hr
      by_cases h1 : (nameFilter q (dedupBy WSRow.pwsid
            (wsOf (pyUpper (pyStrip st))).rows)).isEmpty = true ∧
          pyStrip q ≠ "" ∧ ¬ (findTokens (pyStrip q)).isEmpty = true
      · rw [if_pos h1] at hr
        simp at hr
      · rw [if_neg h1] at hr
        cases cf with
        | none =>
          simp only at hr
          exact wsOnlyOut_provenance hr
        | some cfv =>
          simp only at hr
          by_cases h2 : cfv = ""
          · rw [if_pos h2] at hr
            exact wsOnlyOut_provenance hr
          · rw [if_neg h2] at hr
            by_cases h3 : (gaAll.rows.isEmpty || !gaAll.hasPwsid) = true
            · rw [if_pos h3] at hr
              exact wsOnlyOut_provenance hr
            · rw [if_neg h3] at hr
              by_cases h4 : (gaBulkMatches gaAll (pyUpper (pyStrip st))
                  (pyLower (pyStrip cfv))).isEmpty = true
              · rw [if_pos h4] at hr
                exact wsOnlyOut_provenance hr
              · rw [if_neg h4] at hr
                simp only at hr
                have hm := mem_sortDedup hr
                rcases List.mem_map.mp hm with ⟨wg, hwg, hrw⟩
                rcases List.mem_flatMap.mp hwg with ⟨w, hwmem, hwg2⟩
                rcases List.mem_map.mp hwg2 with ⟨g, _, hwgeq⟩
                refine ⟨w, hwmem, ?_, ?_, ?_⟩
                · rw [← hrw, ← hwgeq]
                · rw [← hrw, ← hwgeq]
                · intro hhc hne
                  rw [← hrw, ← hwgeq]
                  have hbeq : (pyStrip (fillnaStr w.city_name) == "") = false :=
                    beq_eq_false_iff_ne.mpr hne
                  simp [hhc, hbeq]

/-- C3: for every result row of a search — webapp `fast_search` and CLI
`search_by_name` alike — whose backing System row has a non-blank
`CITY_NAME` (the column being present) and for which a Location-table
city (`CITY_SERVED`) is also present and non-blank, the merged `CITY`
equals the System-table value (as normalised by the source's
`.str.strip()`): the System table always wins. -/
theorem claim_C3 :
    (∀ (wsOf : String → WSTable) (ga : String → List GARow)
       (st q c : String) (cap : Nat) (r : ResultRow) (w : WSRow),
       r ∈ (fast_search wsOf ga st q c cap).rows →
       w ∈ (get_ws_by_state wsOf (pyUpper (pyStrip st))).rows →
       w.pwsid = r.pwsid →
       (get_ws_by_state wsOf (pyUpper (pyStrip st))).hasCity = true →
       pyStrip (fillnaStr w.city_name) ≠ "" →
       (∃ g ∈ ga r.pwsid, ∃ cs, g.city_served = some cs ∧ pyStrip cs ≠ "") →
       r.city = some (pyStrip (fillnaStr w.city_name))) ∧
    (∀ (wsOf : String → WSTable) (gaAll : GABulk) (st q : String)
       (cf : Option String) (r : ResultRow) (w : WSRow),
       r ∈ (search_by_name wsOf gaAll st q cf).rows →
       w ∈ dedupBy WSRow.pwsid (wsOf (pyUpper (pyStrip st))).rows →
       w.pwsid = r.pwsid →
       (wsOf (pyUpper (pyStrip st))).hasCity = true →
       pyStrip (fillnaStr w.city_name) ≠ "" →
       (∃ g ∈ gaAll.rows, g.pwsid = r.pwsid ∧
         ∃ cs, g.city_served = some cs ∧ pyStrip cs ≠ "") →
       r.city = some (pyStrip (fillnaStr w.city_name))) := by
  constructor
  · intro wsOf ga st q c cap r w hr hw hpid hhc hcity _hga
    rcases fast_search_provenance wsOf ga st q c cap hr with ⟨w', hw', hpid', _, hcity'⟩
    have hnodup :
        ((get_ws_by_state wsOf (pyUpper (pyStrip st))).rows.map WSRow.pwsid).Nodup := by
      show ((dedupBy WSRow.pwsid
        (wsOf (pyUpper (pyUpper (pyStrip st)))).rows).map WSRow.pwsid).Nodup
      exact nodup_keys_dedupBy _ _
    have hw'mem : w' ∈ (get_ws_by_state wsOf (pyUpper (pyStrip st))).rows :=
      nameFilter_subset w' hw'
    have heqkey : WSRow.pwsid w = WSRow.pwsid w' := by rw [hpid, hpid']
    have hww' : w = w' := List.inj_on_of_nodup_map hnodup hw hw'mem heqkey
    rw [hww']
    exact hcity' hhc (hww' ▸ hcity)
  · intro wsOf gaAll st q cf r w hr hw hpid hhc hcity _hga
    rcases search_by_name_provenance wsOf gaAll st q cf hr with ⟨w', hw', hpid', _, hcity'⟩
    have hnodup : ((dedupBy WSRow.pwsid
        (wsOf (pyUpper (pyStrip st))).rows).map WSRow.pwsid).Nodup :=
      nodup_keys_dedupBy _ _
    have hw'mem : w' ∈ dedupBy WSRow.pwsid (wsOf (pyUpper (pyStrip st))).rows :=
      nameFilter_subset w' hw'
    have heqkey : WSRow.pwsid w = WSRow.pwsid w' := by rw [hpid, hpid']
    have hww' : w = w' := List.inj_on_of_nodup_map hnodup hw hw'mem heqkey
    rw [hww']
    exact hcity' hhc (hww' ▸ hcity)

theorem claim_C3_witness :
    ({ pwsid := "CA0000001", pws_name := "ALPHA WATER", city := some "FRESNO",
       county_served := some "FRESNO COUNTY" } : ResultRow).city =
      some (pyStrip (fillnaStr (some "FRESNO"))) ∧
    ({ pwsid := "CA0000002", pws_name := "BETA WATER", city := some "LODI",
       county_served := some "SAN JOAQUIN" } : ResultRow).city =
      some (pyStrip (fillnaStr (some "LODI"))) := by
  constructor
  · refine claim_C3.1 wsOfFixture gaOneOracle "ca" "" "fresno" 300
      { pwsid := "CA0000001", pws_name := "ALPHA WATER", city := some "FRESNO",
        county_served := some "FRESNO COUNTY" }
      { pwsid := "CA0000001", pws_name := "ALPHA WATER", city_name := some "FRESNO" }
      (by decide) (by decide) (by decide) (by decide) (by decide) ?_
    exact ⟨{ city_served := some "FRESNO", county_served := some "FRESNO COUNTY" },
      by decide, "FRESNO", rfl, by decide⟩
  · refine claim_C3.2 wsOfFixture gaBulkFixture "ca" "" (some "joaquin")
      { pwsid := "CA0000002", pws_name := "BETA WATER", city := some "LODI",
        county_served := some "SAN JOAQUIN" }
      { pwsid := "CA0000002", pws_name := "BETA WATER", city_name := some "LODI" }
      (by decide) (by decide) (by decide) (by decide) (by decide) ?_
    exact ⟨{ pwsid := "CA0000002", city_served := some "LODI GA",
             county_served := some "SAN JOAQUIN" },
      by decide, rfl, "LODI GA", rfl, by decide⟩

/-- C8: in every search result (webapp `fast_search` and CLI
`search_by_name`), each `PWSID` appears in at most one row and the rows
are sorted by `PWS_NAME`. -/
theorem claim_C8 :
    (∀ (wsOf : String → WSTable) (ga : String → List GARow)
       (st q c : String) (cap : Nat),
       List.Pairwise rowLE (fast_search wsOf ga st q c cap).rows ∧
       ((fast_search wsOf ga st q c cap).rows.map ResultRow.pwsid).Nodup) ∧
    (∀ (wsOf : String → WSTable) (gaAll : GABulk) (st q : String)
       (cf : Option String),
       List.Pairwise rowLE (search_by_name wsOf gaAll st q cf).rows ∧
       ((search_by_name wsOf gaAll st q cf).rows.map ResultRow.pwsid).Nodup) := by
  constructor
  · intro wsOf ga st q c cap
    unfold fast_search
    by_cases h0 : (get_ws_by_state wsOf (pyUpper (pyStrip st))).rows.isEmpty = true
    · rw [if_pos h0]
      exact ⟨List.Pairwise.nil, List.nodup_nil⟩
    · rw [if_neg h0]
      by_cases h1 : pyStrip c = ""
      · rw [if_pos h1]
        exact ⟨wsOnlyOut_sorted _ _, wsOnlyOut_nodup _ _⟩
      · rw [if_neg h1]
        simp only
        split <;> split <;>
          first
            | exact ⟨wsOnlyOut_sorted _ _, wsOnlyOut_nodup _ _⟩
            | exact ⟨sortDedup_sorted _, sortDedup_nodup _⟩
  · intro wsOf gaAll st q cf
    unfold search_by_name
    simp only
    repeat' split
    all_goals
      first
        | exact ⟨List.Pairwise.nil, List.nodup_nil⟩
        | exact ⟨wsOnlyOut_sorted _ _, wsOnlyOut_nodup _ _⟩
        | exact ⟨sortDedup_sorted _, sortDedup_nodup _⟩

/-- With a blank location query, `fast_search` returns the WS-only view and
issues no GEOGRAPHIC_AREA fetch. -/
theorem fast_search_county_blank (wsOf : String → WSTable)
    (ga : String → List GARow) (st q c : String) (cap : Nat)
    (hc : pyStrip c = "") :
    fast_search wsOf ga st q c cap =
      { rows := wsOnlyOut (get_ws_by_state wsOf (pyUpper (pyStrip st))).hasCity
          (fsWS wsOf st q),
        gaFetched := [], truncNote := false } := by
  unfold fsWS fast_search
  by_cases h0 : (get_ws_by_state wsOf (pyUpper (pyStrip st))).rows.isEmpty = true
  · rw [if_pos h0]
    have hnil : (get_ws_by_state wsOf (pyUpper (pyStrip st))).rows = [] :=
      List.isEmpty_iff.mp h0
    rw [hnil, nameFilter_nil]
    rfl
  · rw [if_neg h0, if_pos hc]

/-- When both the WS-city matches and the Location-table matches are empty,
`fast_search` falls back to the WS-only view (without the truncation note). -/
theorem fast_search_union_empty (wsOf : String → WSTable)
    (ga : String → List GARow) (st q c : String) (cap : Nat)
    (hc : pyStrip c ≠ "")
    (h1 : fsWsCity wsOf st q c = [])
    (h2 : fsGaMatches wsOf ga st q c cap = []) :
    fast_search wsOf ga st q c cap =
      { rows := wsOnlyOut (get_ws_by_state wsOf (pyUpper (pyStrip st))).hasCity
          (fsWS wsOf st q),
        gaFetched := fsCapped wsOf st q cap, truncNote := false } := by
  unfold fsWsCity fsWS at h1
  unfold fsGaMatches fsCapped fsWS at h2
  unfold fsCapped fsWS
  unfold fast_search
  by_cases h0 : (get_ws_by_state wsOf (pyUpper (pyStrip st))).rows.isEmpty = true
  · rw [if_pos h0]
    have hnil : (get_ws_by_state wsOf (pyUpper (pyStrip st))).rows = [] :=
      List.isEmpty_iff.mp h0
    rw [hnil, nameFilter_nil]
    simp only [SearchOut.mk.injEq]
    refine ⟨rfl, ?_, trivial⟩
    have hlt : ¬ decide (cap < (List.map WSRow.pwsid ([] : List WSRow)).length) = true := by
      simp
    rw [if_neg hlt]
    rfl
  · rw [if_neg h0, if_neg hc]
    simp only
    rw [if_pos (by rw [h1, h2]; rfl)]

/-- C2 (counterexample): a search where the location query matches no
Location-table row at all (the GA oracle has no rows for any system), yet
the result is NOT the name-only result: the System-table city path alone
matched a strict subset, so no fallback occurs. -/
theorem claim_C2_counterexample :
    gaEmptyOracle "CA0000001" = [] ∧ gaEmptyOracle "CA0000002" = [] ∧
    (fast_search wsOfFixture gaEmptyOracle "ca" "" "fresno" 300).rows ≠
      (fast_search wsOfFixture gaEmptyOracle "ca" "" "" 300).rows :=
  ⟨rfl, rfl, by decide⟩

/-- C2 (amended): the fallback of `fast_search` is keyed on the *union*:
when both the System-city matches and the Location-table matches are
empty, the result rows equal those of the same search with an empty
location query; for the CLI `search_by_name`, which has no System-city
path, the original law holds: when the bulk Location matches are empty
the result rows equal the name-only rows. -/
theorem claim_C2_amended :
    (∀ (wsOf : String → WSTable) (ga : String → List GARow)
       (st q c : String) (cap : Nat),
       pyStrip c ≠ "" →
       fsWsCity wsOf st q c = [] →
       fsGaMatches wsOf ga st q c cap = [] →
       (fast_search wsOf ga st q c cap).rows =
         (fast_search wsOf ga st q "" cap).rows) ∧
    (∀ (wsOf : String → WSTable) (gaAll : GABulk) (st q cf : String),
       cf ≠ "" →
       gaBulkMatches gaAll (pyUpper (pyStrip st)) (pyLower (pyStrip cf)) = [] →
       (search_by_name wsOf gaAll st q (some cf)).rows =
         (search_by_name wsOf gaAll st q none).rows) := by
  constructor
  · intro wsOf ga st q c cap hc h1 h2
    rw [fast_search_union_empty wsOf ga st q c cap hc h1 h2,
        fast_search_county_blank wsOf ga st q "" cap (by decide)]
  · intro wsOf gaAll st q cf hcf hga
    unfold search_by_name
    by_cases hsc : ¬ isTwoUpper (pyUpper (pyStrip st)) = true
    · rw [if_pos hsc, if_pos hsc]
    · rw [if_neg hsc, if_neg hsc]
      by_cases h0 : (wsOf (pyUpper (pyStrip st))).rows.isEmpty = true
      · rw [if_pos h0, if_pos h0]
      · rw [if_neg h0, if_neg h0]
        by_cases h1 : (nameFilter q (dedupBy WSRow.pwsid
              (wsOf (pyUpper (pyStrip st))).rows)).isEmpty = true ∧
            pyStrip q ≠ "" ∧ ¬ (findTokens (pyStrip q)).isEmpty = true
        · rw [if_pos h1, if_pos h1]
        · rw [if_neg h1, if_neg h1]
          simp only
          rw [if_neg hcf]
          by_cases h2 : (gaAll.rows.isEmpty || !gaAll.hasPwsid) = true
          · rw [if_pos h2]
          · rw [if_neg h2, if_pos (by rw [hga]; rfl)]

theorem claim_C2_witness :
    (fast_search wsOfNone gaEmptyOracle "ca" "" "fresno" 300).rows =
      (fast_search wsOfNone gaEmptyOracle "ca" "" "" 300).rows ∧
    (search_by_name wsOfFixture gaBulkEmpty "ca" "" (some "anchorage")).rows =
      (search_by_name wsOfFixture gaBulkEmpty "ca" "" none).rows := by
  constructor
  · exact claim_C2_amended.1 wsOfNone gaEmptyOracle "ca" "" "fresno" 300
      (by decide) (by decide) (by decide)
  · exact claim_C2_amended.2 wsOfFixture gaBulkEmpty "ca" "" "anchorage"
      (by decide) (by decide)

/-- C5 (counterexample): with 2 surviving candidates and cap 1, exactly
1 detail fetch is issued (the cap), but because the capped probes and the
System-city path match nothing, the union-empty fallback returns early
and the result is NOT annotated as truncated. -/
theorem claim_C5_counterexample :
    ((fsWS wsOfFixture "ca" "").map WSRow.pwsid).length = 2 ∧
    (fast_search wsOfFixture gaEmptyOracle "ca" "" "zzz" 1).gaFetched.length = 1 ∧
    (fast_search wsOfFixture gaEmptyOracle "ca" "" "zzz" 1).truncNote = false :=
  ⟨by decide, by decide, by decide⟩

/-- C5 (amended): when the surviving candidates exceed the cap, exactly
`cap` per-PWSID detail fetches are issued, and the result carries the
truncation note exactly when the union of System-city and Location
matches is non-empty (in the union-empty fallback the note is skipped). -/
theorem claim_C5_amended (wsOf : String → WSTable) (ga : String → List GARow)
    (st q c : String) (cap : Nat)
    (hc : pyStrip c ≠ "")
    (hover : cap < ((fsWS wsOf st q).map WSRow.pwsid).length) :
    (fast_search wsOf ga st q c cap).gaFetched.length = cap ∧
    ((fast_search wsOf ga st q c cap).truncNote = true ↔
      ¬ (fsWsCity wsOf st q c = [] ∧ fsGaMatches wsOf ga st q c cap = [])) := by
  unfold fsWS at hover
  have h0 : ¬ (get_ws_by_state wsOf (pyUpper (pyStrip st))).rows.isEmpty = true := by
    intro h
    rw [List.isEmpty_iff.mp h, nameFilter_nil] at hover
    simp at hover
  have hdec : decide (cap < (List.map WSRow.pwsid
      (nameFilter q (get_ws_by_state wsOf (pyUpper (pyStrip st))).rows)).length)
      = true := by
    rw [decide_eq_true_eq]
    exact hover
  have hlen : (List.take cap (List.map WSRow.pwsid
      (nameFilter q (get_ws_by_state wsOf (pyUpper (pyStrip st))).rows))).length
      = cap := by
    rw [List.length_take]
    exact Nat.min_eq_left (Nat.le_of_lt hover)
  unfold fsWsCity fsGaMatches fsCapped fsWS
  unfold fast_search
  rw [if_neg h0, if_neg hc]
  simp only
  rw [if_pos hdec]
  split
  · rename_i hcond
    refine ⟨hlen, ?_⟩
    rw [Bool.and_eq_true] at hcond
    constructor
    · intro hfalse
      simp at hfalse
    · intro hneg
      exact absurd ⟨List.isEmpty_iff.mp hcond.1, List.isEmpty_iff.mp hcond.2⟩ hneg
  · rename_i hcond
    refine ⟨hlen, ?_⟩
    rw [Bool.and_eq_true] at hcond
    constructor
    · intro _ hand
      exact hcond ⟨by rw [hand.1]; rfl, by rw [hand.2]; rfl⟩
    · intro _
      exact hdec

theorem claim_C5_witness :
    (fast_search wsOfFixture gaEmptyOracle "ca" "" "fresno" 1).gaFetched.length = 1 ∧
    ((fast_search wsOfFixture gaEmptyOracle "ca" "" "fresno" 1).truncNote = true ↔
      ¬ (fsWsCity wsOfFixture "ca" "" "fresno" = [] ∧
         fsGaMatches wsOfFixture gaEmptyOracle "ca" "" "fresno" 1 = [])) :=
  claim_C5_amended wsOfFixture gaEmptyOracle "ca" "" "fresno" 1 (by decide) (by decide)

/-- C6 (counterexample): `"ZZ9999999"` matches the validated format
(two letters + seven digits), so the PWSID branch accepts it and the
report flow issues its six remote detail fetches — it is not reported as
an invalid key. -/
theorem claim_C6_counterexample :
    looks_like_pwsid "ZZ9999999" = true ∧
    (pwsid_submit_flow apiErrOracle "ZZ9999999").1 ≠ none ∧
    (pwsid_submit_flow apiErrOracle "ZZ9999999").2.length = 6 :=
  ⟨by decide, by decide, by decide⟩

/-- C6 (amended): every primary key is validated (two ASCII letters
followed by seven digits, on the stripped upper-cased input) before any
remote call — an input failing the format short-circuits with no remote
fetch — but `"ZZ9999999"` satisfies the format and passes validation. -/
theorem claim_C6_amended :
    (∀ (api : String → String → Except Unit ApiData) (p : String),
       looks_like_pwsid (pyUpper (pyStrip p)) = false →
       pwsid_submit_flow api p = (none, [])) ∧
    looks_like_pwsid "ZZ9999999" = true := by
  constructor
  · intro api p h
    unfold pwsid_submit_flow
    rw [if_neg (by simp [h])]
  · decide

theorem claim_C6_witness :
    pwsid_submit_flow apiErrOracle "zz999999 " = (none, []) :=
  claim_C6_amended.1 apiErrOracle "zz999999 " (by decide)

theorem session_get_go_le (conn : Nat → ConnResult) :
    ∀ (b i : Nat), (session_get_go conn i b).2 ≤ b := by
  intro b
  induction b with
  | zero => intro i; simp [session_get_go]
  | succ k ih =>
    intro i
    unfold session_get_go
    match conn i with
    | .respOk d => simp
    | .respBad => simp
    | .connFail =>
      simp only
      by_cases hk : (k == 0) = true
      · rw [if_pos hk]
        simp
      · rw [if_neg hk]
        simp only
        exact Nat.succ_le_succ (ih (i + 1))

/-- C7 (counterexample): the shared session is mounted with
`HTTPAdapter(max_retries=3)`, so one verified `_session.get` may consume
up to four connection attempts; here a fetch performs 4 connection
attempts, more than the 2 the claim's "only retry is the single
TLS-downgrade fallback" allows. -/
theorem claim_C7_counterexample :
    (api_get_json_attempts connRetryOracle connRetryOracle).2 = 4 ∧
    ¬ (api_get_json_attempts connRetryOracle connRetryOracle).2 ≤ 2 :=
  ⟨by decide, by decide⟩

/-- C7 (amended): `api_get_json` issues the verified request and — only
after it fails — exactly one unverified retry; a paged pull whose first
page's fetch fails returns an empty row sequence and logs the failure
instead of raising; a failed primary-key fetch returns the empty table;
but connection attempts per fetch are bounded by `2 * (max_retries + 1)`
= 8, not 2, because of the session adapter's `max_retries=3`. -/
theorem claim_C7_amended :
    (∀ get : Bool → Except Unit ApiData,
       api_get_json_calls get = [true] ∨
       (api_get_json_calls get = [true, false] ∧ get true = .error ())) ∧
    (∀ (net : Nat → Bool → Except Unit ApiData) (mp : Nat), 0 < mp →
       api_get_json (net 0) = .error () →
       pull_rows_filtered net mp = { rows := [], errLog := [0] } ∧
       pull_rows_paged net mp = { rows := [], errLog := [0] }) ∧
    (∀ (api : String → String → Except Unit ApiData) (t p : String),
       api t p = .error () → fetch_table_by_pwsid api t p = emptyTable) ∧
    (∀ cv cu : Nat → ConnResult,
       (api_get_json_attempts cv cu).2 ≤ 2 * (session_max_retries + 1)) := by
  refine ⟨?_, ?_, ?_, ?_⟩
  · intro get
    unfold api_get_json_calls
    match h : get true with
    | .ok v => left; rfl
    | .error e => right; exact ⟨rfl, rfl⟩
  · intro net mp hmp hfail
    match mp, hmp with
    | k + 1, _ =>
      constructor
      · unfold pull_rows_filtered pull_pages
        rw [hfail]
        rfl
      · unfold pull_rows_paged pull_pages
        rw [hfail]
        rfl
  · intro api t p hfail
    unfold fetch_table_by_pwsid
    rw [hfail]
  · intro cv cu
    have h1 := session_get_go_le cv (session_max_retries + 1) 0
    have h2 := session_get_go_le cu (session_max_retries + 1) 0
    unfold api_get_json_attempts session_get
    cases hr : (session_get_go cv 0 (session_max_retries + 1)).1 with
    | ok d => simp only [hr]; omega
    | error e => simp only [hr]; omega

theorem claim_C7_witness :
    (api_get_json_calls getFail = [true] ∨
      (api_get_json_calls getFail = [true, false] ∧ getFail true = .error ())) ∧
    (pull_rows_filtered netFail 10 = { rows := [], errLog := [0] } ∧
      pull_rows_paged netFail 10 = { rows := [], errLog := [0] }) ∧
    fetch_table_by_pwsid apiErrOracle "WATER_SYSTEM" "CA1010016" = emptyTable ∧
    (api_get_json_attempts connRetryOracle connRetryOracle).2 ≤
      2 * (session_max_retries + 1) :=
  ⟨claim_C7_amended.1 getFail,
   claim_C7_amended.2.1 netFail 10 (by decide) rfl,
   claim_C7_amended.2.2.1 apiErrOracle "WATER_SYSTEM" "CA1010016" rfl,
   claim_C7_amended.2.2.2 connRetryOracle connRetryOracle⟩

/-- C10 (counterexample): a non-empty fetch containing none of the
configured fields is kept unrestricted (`if keep:` is skipped), so the
assembled bundle exposes the unconfigured column `FOO` for
`WATER_SYSTEM`. -/
theorem claim_C10_counterexample :
    (fetch_all_selected apiFooOracle "CA1010016").lookup "WATER_SYSTEM" =
      some { cols := ["FOO"], rows := [[("FOO", "1")]] } ∧
    "FOO" ∉ (TABLE_FIELDS.lookup "WATER_SYSTEM").getD [] :=
  ⟨by decide, by decide⟩

/-- C10 (amended): the detail bundle's key list is exactly the six
configured table names; a failed fetch maps its key to the empty table
rather than omitting it or raising; and a non-empty table containing at
least one configured column is restricted to the configured field list
(a non-empty fetch with no configured column is kept as-is). -/
theorem claim_C10_amended :
    (∀ (api : String → String → Except Unit ApiData) (p : String),
       (fetch_all_selected api p).map Prod.fst =
         ["WATER_SYSTEM", "GEOGRAPHIC_AREA", "VIOLATION",
          "WATER_SYSTEM_FACILITY", "SERVICE_AREA", "TREATMENT"]) ∧
    (∀ (api : String → String → Except Unit ApiData) (p : String)
       (tw : String × List String), tw ∈ TABLE_FIELDS →
       api tw.1 p = .error () →
       (tw.1, emptyTable) ∈ fetch_all_selected api p) ∧
    (∀ (wanted : List String) (df : Table),
       df.rows ≠ [] →
       wanted.filter (fun c => df.cols.contains c) ≠ [] →
       ∀ c ∈ (restrictTable wanted df).cols, c ∈ wanted) := by
  refine ⟨?_, ?_, ?_⟩
  · intro api p
    rfl
  · intro api p tw htw hfail
    have hdf : restrictTable tw.2 (fetch_table_by_pwsid api tw.1 p) = emptyTable := by
      unfold fetch_table_by_pwsid
      rw [hfail]
      rfl
    have hmem := List.mem_map_of_mem
      (fun tw : String × List String =>
        (tw.1, restrictTable tw.2 (fetch_table_by_pwsid api tw.1 p))) htw
    simp only at hmem
    rw [hdf] at hmem
    unfold fetch_all_selected
    exact hmem
  · intro wanted df hrows hkeep c hc
    unfold restrictTable at hc
    rw [if_pos (show ¬ df.rows.isEmpty = true from
      fun h => hrows (List.isEmpty_iff.mp h))] at hc
    simp only at hc
    rw [if_pos (show ¬ (wanted.filter (fun c => df.cols.contains c)).isEmpty = true from
      fun h => hkeep (List.isEmpty_iff.mp h))] at hc
    exact List.mem_of_mem_filter hc

theorem claim_C10_witness :
    ("TREATMENT", emptyTable) ∈ fetch_all_selected apiErrOracle "CA1010016" ∧
    ∀ c ∈ (restrictTable ["PWSID"]
      { cols := ["PWSID", "FOO"], rows := [[("PWSID", "X")]] }).cols,
      c ∈ ["PWSID"] :=
  ⟨claim_C10_amended.2.1 apiErrOracle "CA1010016"
    ("TREATMENT",
     ["COMMENTS_TEXT", "FACILITY_ID", "PWSID", "TREATMENT_ID",
      "TREATMENT_OBJECTIVE_CODE", "TREATMENT_PROCESS_CODE"]) (by decide) rfl,
   claim_C10_amended.2.2 ["PWSID"]
    { cols := ["PWSID", "FOO"], rows := [[("PWSID", "X")]] }
    (by decide) (by decide)⟩
